import Mathlib

/-!
Verification of the firecrawler scraping backend.

Shallow embedding of the core logic of the repository:
  * getScrapingFallbackOrder (src/unnamed/part_005 lines 60-110; identical copy
    in src/unnamed/part_004 lines 237-286),
  * extractLinks (src/unnamed/part_005 lines 112-142),
  * scrapSingleUrl and its backend fallback loop (src/unnamed/part_005
    lines 144-402),
  * getLinksFromSitemap (src/unnamed/part_003 lines 6-54),
  * crawlCancelController (src/unnamed/part_001),
  * the Document class constructor (src/apps/api/src/lib/entities.ts).

External collaborators (network fetches, cheerio HTML parsing, markdown
conversion, metadata extraction, the urlSpecificParams table, Supabase,
the Bull job queue) are modelled as oracle functions carried in explicit
world structures; the control flow of the embedded functions is translated
from the TypeScript source, with JavaScript truthiness made explicit.
-/

namespace Firecrawler

/-! ## JavaScript semantics helpers

JS strings are modelled as Lean `String`; `undefined`/`null` values are
modelled with `Option`.  JS `s.trim()` and `s.length` are modelled over the
character list so that they evaluate inside the kernel. -/

/-- Model of the JavaScript `String.prototype.trim`: drop whitespace from
both ends. -/
def jsTrim (s : String) : String :=
  String.mk (((s.data.dropWhile Char.isWhitespace).reverse.dropWhile Char.isWhitespace).reverse)

/-- Model of the JavaScript `String.prototype.length` (code points). -/
def jsLength (s : String) : Nat := s.data.length

/-- Model of the JavaScript `String.prototype.startsWith`. -/
def jsStartsWith (s p : String) : Bool := s.data.take p.data.length == p.data

/-- JS truthiness of an optional number (`undefined`/`null`/`0` are falsy). -/
def jsTruthyOptInt (o : Option Int) : Bool :=
  match o with
  | some n => n != 0
  | none => false

/-- JS truthiness of an optional string (`undefined`/`null`/empty are falsy). -/
def jsTruthyOptStr (o : Option String) : Bool :=
  match o with
  | some s => s != ""
  | none => false

/-- JS comparison `x >= 400` for an optional status code: `null >= 400` and
`undefined >= 400` are both false. -/
def statusGe400 (o : Option Int) : Bool :=
  match o with
  | some n => 400 ≤ n
  | none => false

/-- JS test `x && x < 400` for an optional status code: the truthiness guard
runs first, so `null` and `undefined` (and `0`) give false. -/
def statusTruthyLt400 (o : Option Int) : Bool :=
  match o with
  | some n => n != 0 && n < 400
  | none => false

/-! ## BackendSelector: getScrapingFallbackOrder
src/unnamed/part_005 lines 60-110 (the copy in src/unnamed/part_004 lines
237-286 is textually identical). -/

/-- Which scraper env vars are set (`!!process.env...`). -/
structure EnvConfig where
  scrapingBeeApiKey : Bool
  fireEngineBetaUrl : Bool
  playwrightMicroserviceUrl : Bool
deriving DecidableEq

/-- The `baseScrapers` constant (part_005 lines 22-28). -/
def baseScrapers : List String :=
  ["fire-engine", "scrapingBee", "playwright", "scrapingBeeLoad", "fetch"]

/-- The availability filter of `getScrapingFallbackOrder` (part_005 lines
66-78): a scraper is kept when its required env var is set; the default
branch (`fetch`) is always kept. -/
def scraperConfigured (env : EnvConfig) (scraper : String) : Bool :=
  if scraper = "scrapingBee" || scraper = "scrapingBeeLoad" then env.scrapingBeeApiKey
  else if scraper = "fire-engine" then env.fireEngineBetaUrl
  else if scraper = "playwright" then env.playwrightMicroserviceUrl
  else true

/-- Order-preserving deduplication keeping the first occurrence: the
semantics of the JS `Array.from(new Set(list))` / `[...new Set(list)]`. -/
def dedupKeepFirst : List String → List String
  | [] => []
  | x :: xs => x :: (dedupKeepFirst xs).filter (fun y => y ≠ x)

/-- `getScrapingFallbackOrder` (part_005 lines 60-110).  An empty
`defaultScraper` models the JS falsy cases (`undefined` or `""`). -/
def getScrapingFallbackOrder (env : EnvConfig) (defaultScraper : String)
    (isWaitPresent isScreenshotPresent isHeadersPresent : Bool) : List String :=
  let availableScrapers := baseScrapers.filter (scraperConfigured env)
  let defaultOrder :=
    ["scrapingBee", "fire-engine", "playwright", "scrapingBeeLoad", "fetch"]
  let defaultOrder :=
    if isWaitPresent || isScreenshotPresent || isHeadersPresent then
      "fire-engine" :: "playwright" ::
        defaultOrder.filter (fun s => s ≠ "fire-engine" && s ≠ "playwright")
    else defaultOrder
  let filteredDefaultOrder := defaultOrder.filter (fun s => availableScrapers.contains s)
  if defaultScraper ≠ "" then
    dedupKeepFirst (defaultScraper :: (filteredDefaultOrder ++ availableScrapers))
  else
    dedupKeepFirst (filteredDefaultOrder ++ availableScrapers)

/-! ## Link extraction: extractLinks
src/unnamed/part_005 lines 112-142.  The cheerio pass that collects the
anchor `href` attribute values (in document order, `none` for anchors
without `href`) and the `new URL(baseUrl).origin` computation are external
collaborators: the list of hrefs and the origin string are inputs here.
The per-href classification and the final `[...new Set(links)]` dedup are
translated from the source. -/

/-- The body of the `$(a).each` loop of `extractLinks`: the pushed links, in
push order, before deduplication. -/
def pushLinks (hrefs : List (Option String)) (origin baseUrl : String) : List String :=
  hrefs.foldl (fun links href? =>
    match href? with
    | none => links
    | some href =>
      if href = "" then links
      else if jsStartsWith href "http://" || jsStartsWith href "https://" then
        links ++ [href]
      else if jsStartsWith href "/" then
        links ++ [origin ++ href]
      else if !jsStartsWith href "#" && !jsStartsWith href "mailto:" then
        links ++ [baseUrl ++ "/" ++ href]
      else if jsStartsWith href "mailto:" then
        links ++ [href]
      else links) []

/-- `extractLinks` (part_005 lines 112-142): classify each href, then
deduplicate with JS `Set` semantics (first occurrence kept). -/
def extractLinks (hrefs : List (Option String)) (origin baseUrl : String) : List String :=
  dedupKeepFirst (pushLinks hrefs origin baseUrl)

/-! ## PageFetcher: scrapSingleUrl
src/unnamed/part_005 lines 144-402.  The `attemptScraping` closure (network
call to the selected backend, the custom-scraping override hook, HTML
cleaning and markdown conversion) is a network-effectful collaborator and is
modelled as an oracle from the scraper method name to the record it returns
at line 271-278.  The fallback loop, the per-iteration state updates and the
document assembly are translated from the source. -/

/-- The record returned by one `attemptScraping` call (part_005 lines
271-278).  `pageStatusCode`/`pageError` are `none` when the scraper reported
`undefined` or `null`. -/
structure ScraperAttempt where
  text : String
  html : String
  rawHtml : String
  screenshot : String
  pageStatusCode : Option Int
  pageError : Option String
deriving DecidableEq

/-- The fields of `PageOptions` (src/apps/api/src/lib/entities.ts) read by
`scrapSingleUrl`.  `waitFor = none` models an absent field. -/
structure PageOptions where
  onlyMainContent : Bool := true
  includeHtml : Bool := false
  includeRawHtml : Bool := false
  waitFor : Option Int := some 0
  screenshot : Bool := false
  headers : Option (List (String × String)) := none

/-- The external collaborators of `scrapSingleUrl`, as oracles:
  * `env` — which scraper env vars are set;
  * `attemptResult url method` — the record produced by `attemptScraping`;
  * `parseMarkdown` — the html-to-markdown collaborator;
  * `removeUnwantedElements` — the cheerio cleaning pass (page options baked in);
  * `extractMetadata` — metadata extraction from the raw html;
  * `anchorHrefs` — the anchor href values cheerio finds in a raw html string;
  * `originOf` — the `new URL(u).origin` computation at the top of
    `extractLinks` (part_005 line 117): `none` models the TypeError `new URL`
    throws for an unparsable URL, which propagates out of `extractLinks`
    (called at line 345) into the outer catch of `scrapSingleUrl`;
  * `defaultScraperFor` — `urlSpecificParams[urlKey]?.defaultScraper ?? ""`
    after the hostname key computation (empty string models a miss). -/
structure ScrapeWorld where
  env : EnvConfig
  attemptResult : String → String → ScraperAttempt
  parseMarkdown : String → String
  removeUnwantedElements : String → String
  extractMetadata : String → List (String × String)
  anchorHrefs : String → List (Option String)
  originOf : String → Option String
  defaultScraperFor : String → String

/-- The mutable locals of the fallback loop: `text`, `html`, `rawHtml`,
`screenshot`, `pageStatusCode` (initially 200), `pageError` (initially
`undefined`), from part_005 lines 281-288; `attempted` instruments which
scrapers the loop has invoked, in order. -/
structure ScrapeLoopState where
  text : String
  html : String
  rawHtml : String
  screenshot : String
  pageStatusCode : Int
  pageError : Option String
  attempted : List String
deriving DecidableEq

/-- Initial loop state (part_005 lines 281-288). -/
def initialLoopState : ScrapeLoopState :=
  { text := "", html := "", rawHtml := "", screenshot := "",
    pageStatusCode := 200, pageError := none, attempted := [] }

/-- One loop iteration after `attemptScraping` returns (part_005 lines
313-326): copy the four content fields, then conditionally update
`pageStatusCode` and `pageError` following the JS truthiness guards. -/
def applyAttempt (st : ScrapeLoopState) (scraper : String) (attempt : ScraperAttempt) :
    ScrapeLoopState :=
  let st1 := { st with
    text := attempt.text, html := attempt.html, rawHtml := attempt.rawHtml,
    screenshot := attempt.screenshot, attempted := st.attempted ++ [scraper] }
  let st2 :=
    if jsTruthyOptInt attempt.pageStatusCode then
      { st1 with pageStatusCode := attempt.pageStatusCode.getD 0 }
    else st1
  if jsTruthyOptStr attempt.pageError && statusGe400 attempt.pageStatusCode then
    { st2 with pageError := attempt.pageError }
  else if statusTruthyLt400 attempt.pageStatusCode then
    { st2 with pageError := none }
  else st2

/-- The `for (const scraper of scrapersInOrder)` fallback loop (part_005
lines 304-334): per iteration, first the crawler-supplied `existingHtml`
bypass, then one backend attempt, then the two break conditions (markdown
text of trimmed length at least 100, or status code 404). -/
def scrapeLoop (w : ScrapeWorld) (url existingHtml : String) :
    List String → ScrapeLoopState → ScrapeLoopState
  | [], st => st
  | scraper :: rest, st =>
    if existingHtml ≠ "" ∧ 100 ≤ jsLength (jsTrim existingHtml) then
      { st with
        text := w.parseMarkdown (w.removeUnwantedElements existingHtml),
        html := w.removeUnwantedElements existingHtml }
    else
      let st3 := applyAttempt st scraper (w.attemptResult url scraper)
      if st3.text ≠ "" ∧ 100 ≤ jsLength (jsTrim st3.text) then st3
      else if st3.pageStatusCode ≠ 0 ∧ st3.pageStatusCode = 404 then st3
      else scrapeLoop w url existingHtml rest st3

/-- The metadata object of the returned document.  `extra` carries the
output of the metadata-extraction collaborator (spread first in the object
literal, so the named fields below override it). -/
structure DocMetadata where
  extra : List (String × String)
  screenshot : Option String
  sourceURL : String
  pageStatusCode : Option Int
  pageError : Option String
deriving DecidableEq

/-- The document shape assembled by `scrapSingleUrl` (part_005 lines
347-400). -/
structure ScrapedDocument where
  content : String
  markdown : String
  html : Option String
  rawHtml : Option String
  linksOnPage : Option (List String)
  metadata : DocMetadata
deriving DecidableEq

/-- Result of `scrapSingleUrl` plus the instrumented list of scrapers the
fallback loop invoked, in invocation order. -/
structure ScrapeResult where
  doc : ScrapedDocument
  attempted : List String
deriving DecidableEq

/-- The `isWaitPresent` argument of the `getScrapingFallbackOrder` call
(part_005 line 299): `pageOptions && pageOptions.waitFor && pageOptions.waitFor > 0`. -/
def isWaitPresentFlag (po : PageOptions) : Bool :=
  match po.waitFor with
  | some n => 0 < n
  | none => false

/-- The failure document built by the outer catch of `scrapSingleUrl`
(part_005 lines 390-400): empty content fields, the trimmed source URL, and
the current values of the loop variables `pageStatusCode`/`pageError`. -/
def catchDocument (url : String) (st : ScrapeLoopState) : ScrapedDocument :=
  { content := "", markdown := "", html := some "", rawHtml := none,
    linksOnPage := some [],
    metadata :=
      { extra := [], screenshot := none, sourceURL := url,
        pageStatusCode := some st.pageStatusCode, pageError := st.pageError } }

/-- `scrapSingleUrl` (part_005 lines 144-402).  `extractorMode` is
`extractorOptions.mode`.  Two exceptions are raised and caught inside the
embedded fragment, both landing in the catch of line 388 and producing the
failure document of lines 390-400: the `All scraping methods failed` throw
at line 337 when the loop text is empty, and the TypeError thrown by
`new URL(urlToScrap)` inside `extractLinks` (line 117, reached from line
345) when the URL is unparsable — modelled by `w.originOf url = none`. -/
def scrapSingleUrl (w : ScrapeWorld) (urlToScrap : String) (po : PageOptions)
    (extractorMode : String) (existingHtml : String) : ScrapeResult :=
  let url := jsTrim urlToScrap
  let defaultScraper := w.defaultScraperFor url
  let scrapersInOrder := getScrapingFallbackOrder w.env defaultScraper
    (isWaitPresentFlag po) po.screenshot po.headers.isSome
  let st := scrapeLoop w url existingHtml scrapersInOrder initialLoopState
  if st.text = "" then
    { doc := catchDocument url st, attempted := st.attempted }
  else match w.originOf url with
  | none =>
    { doc := catchDocument url st, attempted := st.attempted }
  | some origin =>
    { doc :=
        { content := st.text, markdown := st.text,
          html := if po.includeHtml then some st.html else none,
          rawHtml :=
            if po.includeRawHtml || extractorMode = "llm-extraction-from-raw-html" then
              some st.rawHtml
            else none,
          linksOnPage := some (extractLinks (w.anchorHrefs st.rawHtml) origin url),
          metadata :=
            { extra := w.extractMetadata st.rawHtml,
              screenshot := if st.screenshot ≠ "" then some st.screenshot else none,
              sourceURL := url,
              pageStatusCode := some st.pageStatusCode, pageError := st.pageError } },
      attempted := st.attempted }

/-! ## Frontier: getLinksFromSitemap
src/unnamed/part_003 lines 6-54.  The HTTP fetch (axios or fire-engine) and
the xml2js parse are external collaborators, modelled by oracle functions:
`fetch` returns `none` when the request throws, and `parse` abstracts
`parseStringPromise` plus the `parsed.urlset || parsed.sitemapindex` root
selection.  The JS recursion is unbounded; the embedding carries a fuel
argument so that it is total, with every claim about it holding for any
positive fuel. -/

/-- Outcome of parsing a fetched sitemap body:
  * `failed` — `parseStringPromise` threw (caught by the outer catch);
  * `noRoot` — neither `urlset` nor `sitemapindex` present;
  * `root sitemapEntries urlEntries` — the selected root, with its
    `sitemap` children and `url` children; each entry is the first `loc`
    value when `loc` is present and non-empty, `none` otherwise. -/
inductive SitemapParse where
  | failed : SitemapParse
  | noRoot : SitemapParse
  | root (sitemapEntries : Option (List (Option String)))
         (urlEntries : Option (List (Option String))) : SitemapParse
deriving DecidableEq

/-- The network and parser collaborators of `getLinksFromSitemap`. -/
structure SitemapWorld where
  fetch : String → Option String
  parse : String → SitemapParse

/-- `getLinksFromSitemap` (part_003 lines 6-54).  `allUrls` is the shared
accumulator array the source threads through the recursion; a failed fetch
returns it unchanged (line 30), a `sitemapindex` root recurses into each
child `loc`, and a `urlset` root appends each present `url.loc`. -/
def getLinksFromSitemap (w : SitemapWorld) (fuel : Nat) (sitemapUrl : String)
    (allUrls : List String) : List String :=
  match fuel with
  | 0 => allUrls
  | fuel + 1 =>
    match w.fetch sitemapUrl with
    | none => allUrls
    | some content =>
      match w.parse content with
      | SitemapParse.failed => allUrls
      | SitemapParse.noRoot => allUrls
      | SitemapParse.root sitemapEntries urlEntries =>
        match sitemapEntries with
        | some entries =>
          entries.foldl (fun acc loc? =>
            match loc? with
            | some loc => getLinksFromSitemap w fuel loc acc
            | none => acc) allUrls
        | none =>
          match urlEntries with
          | some urls => allUrls ++ urls.filterMap id
          | none => allUrls

/-- The step function folded over the children of a `sitemapindex` root,
named so that theorems can speak about the traversal of a child list. -/
def sitemapChildStep (w : SitemapWorld) (fuel : Nat) (acc : List String)
    (loc? : Option String) : List String :=
  match loc? with
  | some loc => getLinksFromSitemap w fuel loc acc
  | none => acc

/-! ## JobCoordinator: crawlCancelController
src/unnamed/part_001 lines 9-66.  Express, Supabase and the Bull queue are
external collaborators; the request record below carries their observable
outcomes, and the controller is translated as a function from that record to
the HTTP response plus the two side effects the claim is about (the
`billTeam` call and the `job.moveToFailed` transition). -/

/-- Observable inputs of one `crawlCancelController` invocation:
  * `authResult` — `authenticateUser` outcome: `error (status, message)` or
    `ok team_id`;
  * `jobExists` — whether `getJob(jobId)` found the job;
  * `ownershipRows` — the `bulljobs_teams` query: `error message` on a
    Supabase error, otherwise `ok data.length`;
  * `jobState` — `job.getState()`;
  * `progressDocs` — `partialDocs.length` from `job.progress()`, `none` when
    the field is absent;
  * `stateAfterMove` — `job.getState()` after the move attempt. -/
structure CancelRequest where
  authResult : Except (Nat × String) String
  jobExists : Bool
  ownershipRows : Except String Nat
  jobState : String
  progressDocs : Option Nat
  stateAfterMove : String

/-- The HTTP response and the side effects of one controller run:
`billed` is the `billTeam` call (team, amount) if any, `movedToFailed`
records whether `job.moveToFailed` was invoked. -/
structure CancelOutcome where
  status : Nat
  body : String
  billed : Option (String × Nat)
  movedToFailed : Bool
deriving DecidableEq

/-- `crawlCancelController` (part_001 lines 9-66), with early returns
translated to nested branches. -/
def crawlCancelController (req : CancelRequest) : CancelOutcome :=
  match req.authResult with
  | Except.error e => { status := e.1, body := e.2, billed := none, movedToFailed := false }
  | Except.ok team_id =>
    if req.jobExists = false then
      { status := 404, body := "Job not found", billed := none, movedToFailed := false }
    else
      match req.ownershipRows with
      | Except.error msg =>
        { status := 500, body := msg, billed := none, movedToFailed := false }
      | Except.ok rowCount =>
        if rowCount = 0 then
          { status := 403, body := "Unauthorized", billed := none, movedToFailed := false }
        else
          { status := 200,
            body := if req.stateAfterMove = "failed" then "cancelled" else "Cancelling...",
            billed :=
              match req.progressDocs with
              | some n => if 0 < n ∧ req.jobState = "active" then some (team_id, n) else none
              | none => none,
            movedToFailed := true }

/-! ## Document class constructor
src/apps/api/src/lib/entities.ts lines 83-96.  The constructor throws
`Missing required fields` exactly when `data.content` is falsy; the throw is
modelled with `Except`.  Dates are modelled as `Nat` timestamps (`now` is
the `new Date()` value); the `||` defaults follow JS truthiness, where a
`Date` object and any object (even empty) are truthy, while `""` is falsy. -/

/-- The `Partial of Document` argument of the constructor: `none` models an
absent (or `undefined`) field. -/
structure DocumentData where
  content : Option String := none
  createdAt : Option Nat := none
  updatedAt : Option Nat := none
  docType : Option String := none
  metadata : Option (List (String × String)) := none
  markdown : Option String := none
  childrenLinks : Option (List String) := none
  provider : Option String := none

/-- The fields the `Document` class constructor assigns. -/
structure EntitiesDocument where
  content : String
  createdAt : Nat
  updatedAt : Nat
  docType : String
  metadata : List (String × String)
  markdown : String
  childrenLinks : Option (List String)
  provider : Option String
deriving DecidableEq

/-- The `Document` constructor (entities.ts lines 83-96). -/
def documentConstructor (data : DocumentData) (now : Nat) : Except String EntitiesDocument :=
  if data.content = none ∨ data.content = some "" then
    Except.error "Missing required fields"
  else
    Except.ok
      { content := data.content.getD "",
        createdAt := data.createdAt.getD now,
        updatedAt := data.updatedAt.getD now,
        docType :=
          match data.docType with
          | some t => if t = "" then "unknown" else t
          | none => "unknown",
        metadata := (data.metadata).getD [("sourceURL", "")],
        markdown := (data.markdown).getD "",
        childrenLinks := data.childrenLinks,
        provider :=
          match data.provider with
          | some p => if p = "" then none else some p
          | none => none }

/-! ## Helper lemmas -/

/-- Membership is preserved by the first-occurrence deduplication. -/
lemma mem_dedupKeepFirst (a : String) (l : List String) :
    a ∈ dedupKeepFirst l ↔ a ∈ l := by
  induction l with
  | nil => simp [dedupKeepFirst]
  | cons x xs ih =>
    by_cases hax : a = x <;>
      simp [dedupKeepFirst, List.mem_filter, hax, ih]

/-- The first-occurrence deduplication returns a duplicate-free list. -/
lemma nodup_dedupKeepFirst : ∀ l : List String, (dedupKeepFirst l).Nodup := by
  intro l
  induction l with
  | nil => simp [dedupKeepFirst]
  | cons x xs ih =>
    simp only [dedupKeepFirst]
    refine List.nodup_cons.mpr ⟨?_, ih.filter _⟩
    intro hmem
    have hpx := List.of_mem_filter hmem
    simp at hpx

/-- The first-occurrence deduplication returns a sublist of its input. -/
lemma dedupKeepFirst_sublist : ∀ l : List String, List.Sublist (dedupKeepFirst l) l := by
  intro l
  induction l with
  | nil => simp [dedupKeepFirst]
  | cons x xs ih =>
    simp only [dedupKeepFirst]
    exact List.Sublist.cons₂ x ((List.filter_sublist _).trans ih)

/-- The fallback order is always duplicate-free. -/
lemma nodup_fallbackOrder (env : EnvConfig) (ds : String) (w s h : Bool) :
    (getScrapingFallbackOrder env ds w s h).Nodup := by
  simp only [getScrapingFallbackOrder]
  split <;> exact nodup_dedupKeepFirst _

/-- The plain-HTTP scraper is always configured and hence always a member of
the fallback order. -/
lemma fetch_mem_fallbackOrder (env : EnvConfig) (ds : String) (w s h : Bool) :
    "fetch" ∈ getScrapingFallbackOrder env ds w s h := by
  have hconf : scraperConfigured env "fetch" = true := rfl
  have hav : "fetch" ∈ baseScrapers.filter (scraperConfigured env) :=
    List.mem_filter.mpr ⟨by simp [baseScrapers], hconf⟩
  simp only [getScrapingFallbackOrder]
  split
  · exact (mem_dedupKeepFirst _ _).mpr (List.mem_cons_of_mem _ (List.mem_append_right _ hav))
  · exact (mem_dedupKeepFirst _ _).mpr (List.mem_append_right _ hav)

/-- Field computation of one loop iteration: the text is copied from the
attempt. -/
lemma applyAttempt_text (st : ScrapeLoopState) (s : String) (a : ScraperAttempt) :
    (applyAttempt st s a).text = a.text := by
  simp only [applyAttempt]
  by_cases h1 : (jsTruthyOptStr a.pageError && statusGe400 a.pageStatusCode) = true <;>
    by_cases h2 : statusTruthyLt400 a.pageStatusCode = true <;>
    by_cases h3 : jsTruthyOptInt a.pageStatusCode = true <;>
    simp [h1, h2, h3]

/-- Field computation of one loop iteration: the invoked scraper is appended
to the instrumentation list. -/
lemma applyAttempt_attempted (st : ScrapeLoopState) (s : String) (a : ScraperAttempt) :
    (applyAttempt st s a).attempted = st.attempted ++ [s] := by
  simp only [applyAttempt]
  by_cases h1 : (jsTruthyOptStr a.pageError && statusGe400 a.pageStatusCode) = true <;>
    by_cases h2 : statusTruthyLt400 a.pageStatusCode = true <;>
    by_cases h3 : jsTruthyOptInt a.pageStatusCode = true <;>
    simp [h1, h2, h3]

/-- Field computation of one loop iteration: the status code is overwritten
only when the attempt reported a truthy one. -/
lemma applyAttempt_pageStatusCode (st : ScrapeLoopState) (s : String) (a : ScraperAttempt) :
    (applyAttempt st s a).pageStatusCode =
      if jsTruthyOptInt a.pageStatusCode then a.pageStatusCode.getD 0
      else st.pageStatusCode := by
  simp only [applyAttempt]
  by_cases h1 : (jsTruthyOptStr a.pageError && statusGe400 a.pageStatusCode) = true <;>
    by_cases h2 : statusTruthyLt400 a.pageStatusCode = true <;>
    by_cases h3 : jsTruthyOptInt a.pageStatusCode = true <;>
    simp [h1, h2, h3]

/-- Field computation of one loop iteration: the page error update. -/
lemma applyAttempt_pageError (st : ScrapeLoopState) (s : String) (a : ScraperAttempt) :
    (applyAttempt st s a).pageError =
      if jsTruthyOptStr a.pageError && statusGe400 a.pageStatusCode then a.pageError
      else if statusTruthyLt400 a.pageStatusCode then none
      else st.pageError := by
  simp only [applyAttempt]
  by_cases h1 : (jsTruthyOptStr a.pageError && statusGe400 a.pageStatusCode) = true <;>
    by_cases h2 : statusTruthyLt400 a.pageStatusCode = true <;>
    by_cases h3 : jsTruthyOptInt a.pageStatusCode = true <;>
    simp [h1, h2, h3]

/-- The fallback loop only ever appends to the instrumentation list, and the
appended scrapers are an initial segment of the order it was given. -/
lemma scrapeLoop_attempted_extends (w : ScrapeWorld) (url eh : String) :
    ∀ (order : List String) (st : ScrapeLoopState),
      ∃ t u, (scrapeLoop w url eh order st).attempted = st.attempted ++ t
        ∧ order = t ++ u := by
  intro order
  induction order with
  | nil => exact fun st => ⟨[], [], by simp [scrapeLoop], rfl⟩
  | cons scraper rest ih =>
    intro st
    simp only [scrapeLoop]
    by_cases hex : eh ≠ "" ∧ 100 ≤ jsLength (jsTrim eh)
    · rw [if_pos hex]
      exact ⟨[], scraper :: rest, by simp, rfl⟩
    · rw [if_neg hex]
      by_cases hb1 : (applyAttempt st scraper (w.attemptResult url scraper)).text ≠ ""
          ∧ 100 ≤ jsLength (jsTrim (applyAttempt st scraper (w.attemptResult url scraper)).text)
      · rw [if_pos hb1]
        exact ⟨[scraper], rest, applyAttempt_attempted st scraper _, rfl⟩
      · rw [if_neg hb1]
        by_cases hb2 : (applyAttempt st scraper (w.attemptResult url scraper)).pageStatusCode ≠ 0
            ∧ (applyAttempt st scraper (w.attemptResult url scraper)).pageStatusCode = 404
        · rw [if_pos hb2]
          exact ⟨[scraper], rest, applyAttempt_attempted st scraper _, rfl⟩
        · rw [if_neg hb2]
          obtain ⟨t, u, h1, h2⟩ := ih (applyAttempt st scraper (w.attemptResult url scraper))
          refine ⟨scraper :: t, u, ?_, by rw [h2]; rfl⟩
          rw [h1, applyAttempt_attempted, List.append_assoc]
          rfl

/-- Both branches of the document assembly return the instrumentation list
of the loop. -/
lemma scrapSingleUrl_attempted (w : ScrapeWorld) (url : String) (po : PageOptions)
    (mode eh : String) :
    (scrapSingleUrl w url po mode eh).attempted =
      (scrapeLoop w (jsTrim url) eh
        (getScrapingFallbackOrder w.env (w.defaultScraperFor (jsTrim url))
          (isWaitPresentFlag po) po.screenshot po.headers.isSome)
        initialLoopState).attempted := by
  simp only [scrapSingleUrl]
  split
  · rfl
  · split <;> rfl

/-- Loop invariant for a fetch in which every backend attempt yields empty
text and no status code: the loop state keeps empty text, status 200 and no
page error. -/
lemma scrapeLoop_all_trivial (w : ScrapeWorld) (url : String)
    (hAll : ∀ s, (w.attemptResult url s).text = ""
      ∧ (w.attemptResult url s).pageStatusCode = none) :
    ∀ (order : List String) (st : ScrapeLoopState),
      st.text = "" → st.pageStatusCode = 200 → st.pageError = none →
      (scrapeLoop w url "" order st).text = ""
      ∧ (scrapeLoop w url "" order st).pageStatusCode = 200
      ∧ (scrapeLoop w url "" order st).pageError = none := by
  intro order
  induction order with
  | nil =>
    intro st h1 h2 h3
    exact ⟨by simpa [scrapeLoop] using h1, by simpa [scrapeLoop] using h2,
      by simpa [scrapeLoop] using h3⟩
  | cons scraper rest ih =>
    intro st h1 h2 h3
    obtain ⟨hat, hap⟩ := hAll scraper
    simp only [scrapeLoop]
    rw [if_neg (by simp)]
    have h3t : (applyAttempt st scraper (w.attemptResult url scraper)).text = "" := by
      rw [applyAttempt_text, hat]
    have h3p : (applyAttempt st scraper (w.attemptResult url scraper)).pageStatusCode = 200 := by
      rw [applyAttempt_pageStatusCode, hap]
      simpa [jsTruthyOptInt] using h2
    have h3e : (applyAttempt st scraper (w.attemptResult url scraper)).pageError = none := by
      rw [applyAttempt_pageError, hap]
      simpa [statusGe400, statusTruthyLt400] using h3
    rw [if_neg (by simp [h3t]), if_neg (by simp [h3p])]
    exact ih _ h3t h3p h3e

/-- Loop invariant for the 404 early stop: every scraper the loop invoked,
except possibly the last one, reported a status code different from 404. -/
lemma scrapeLoop_no404_dropLast (w : ScrapeWorld) (url eh : String) :
    ∀ (order : List String) (st : ScrapeLoopState),
      (∀ s ∈ st.attempted, (w.attemptResult url s).pageStatusCode ≠ some 404) →
      ∀ s ∈ (scrapeLoop w url eh order st).attempted.dropLast,
        (w.attemptResult url s).pageStatusCode ≠ some 404 := by
  intro order
  induction order with
  | nil =>
    intro st hst s hs
    exact hst s ((List.dropLast_sublist _).subset (by simpa [scrapeLoop] using hs))
  | cons scraper rest ih =>
    intro st hst s hs
    simp only [scrapeLoop] at hs
    by_cases hex : eh ≠ "" ∧ 100 ≤ jsLength (jsTrim eh)
    · rw [if_pos hex] at hs
      exact hst s ((List.dropLast_sublist _).subset hs)
    · rw [if_neg hex] at hs
      by_cases h404 : (w.attemptResult url scraper).pageStatusCode = some 404
      · have hpsc : (applyAttempt st scraper (w.attemptResult url scraper)).pageStatusCode = 404 := by
          rw [applyAttempt_pageStatusCode, h404]
          simp [jsTruthyOptInt]
        by_cases hb1 : (applyAttempt st scraper (w.attemptResult url scraper)).text ≠ ""
            ∧ 100 ≤ jsLength (jsTrim (applyAttempt st scraper (w.attemptResult url scraper)).text)
        · rw [if_pos hb1] at hs
          rw [applyAttempt_attempted, List.dropLast_concat] at hs
          exact hst s hs
        · rw [if_neg hb1, if_pos ⟨by rw [hpsc]; decide, hpsc⟩] at hs
          rw [applyAttempt_attempted, List.dropLast_concat] at hs
          exact hst s hs
      · have hsafe : ∀ x ∈ (applyAttempt st scraper (w.attemptResult url scraper)).attempted,
            (w.attemptResult url x).pageStatusCode ≠ some 404 := by
          rw [applyAttempt_attempted]
          intro x hx
          rcases List.mem_append.mp hx with hx | hx
          · exact hst x hx
          · rcases List.mem_singleton.mp hx with rfl
            exact h404
        by_cases hb1 : (applyAttempt st scraper (w.attemptResult url scraper)).text ≠ ""
            ∧ 100 ≤ jsLength (jsTrim (applyAttempt st scraper (w.attemptResult url scraper)).text)
        · rw [if_pos hb1] at hs
          exact hsafe s ((List.dropLast_sublist _).subset hs)
        · rw [if_neg hb1] at hs
          by_cases hb2 : (applyAttempt st scraper (w.attemptResult url scraper)).pageStatusCode ≠ 0
              ∧ (applyAttempt st scraper (w.attemptResult url scraper)).pageStatusCode = 404
          · rw [if_pos hb2] at hs
            exact hsafe s ((List.dropLast_sublist _).subset hs)
          · rw [if_neg hb2] at hs
            exact ih _ hsafe s hs

/-- A sitemap URL whose fetch fails contributes nothing, for any fuel. -/
lemma getLinksFromSitemap_fetch_none (w : SitemapWorld) (u : String)
    (hu : w.fetch u = none) :
    ∀ (fuel : Nat) (acc : List String), getLinksFromSitemap w fuel u acc = acc := by
  intro fuel acc
  cases fuel with
  | zero => rfl
  | succ n => simp [getLinksFromSitemap, hu]

/-! ## Concrete instances used by witnesses and counterexamples -/

/-- Environment with no scraper env vars set (only plain fetch can run). -/
def envNone : EnvConfig :=
  { scrapingBeeApiKey := false, fireEngineBetaUrl := false,
    playwrightMicroserviceUrl := false }

/-- Environment with only the ScrapingBee API key set. -/
def envBee : EnvConfig :=
  { scrapingBeeApiKey := true, fireEngineBetaUrl := false,
    playwrightMicroserviceUrl := false }

/-- The default page options of `scrapSingleUrl` (part_005 lines 146-153). -/
def defaultPageOptions : PageOptions := {}

/-- The attempt record a timed-out backend produces: empty text, no status
code (`pageStatusCode: null`), a timeout page error. -/
def timeoutAttempt : ScraperAttempt :=
  { text := "", html := "", rawHtml := "", screenshot := "",
    pageStatusCode := none, pageError := some "Request timed out" }

/-- A world in which every backend attempt times out. -/
def c2World : ScrapeWorld :=
  { env := envNone,
    attemptResult := fun _ _ => timeoutAttempt,
    parseMarkdown := fun s => s,
    removeUnwantedElements := fun s => s,
    extractMetadata := fun _ => [],
    anchorHrefs := fun _ => [],
    originOf := fun _ => some "https://example.com",
    defaultScraperFor := fun _ => "" }

/-- A world in which every backend attempt reports a 500 with short text, so
the loop walks the whole order. -/
def c3World : ScrapeWorld :=
  { env := envBee,
    attemptResult := fun _ _ =>
      { text := "", html := "", rawHtml := "", screenshot := "",
        pageStatusCode := some 500, pageError := some "Internal Server Error" },
    parseMarkdown := fun s => s,
    removeUnwantedElements := fun s => s,
    extractMetadata := fun _ => [],
    anchorHrefs := fun _ => [],
    originOf := fun _ => some "https://example.com",
    defaultScraperFor := fun _ => "" }

/-- A hundred-character body. -/
def longBody : String := String.mk (List.replicate 100 'a')

/-- A world whose first (and only) configured backend immediately returns a
long body. -/
def c4World : ScrapeWorld :=
  { env := envNone,
    attemptResult := fun _ _ =>
      { text := longBody, html := longBody, rawHtml := longBody, screenshot := "",
        pageStatusCode := some 200, pageError := none },
    parseMarkdown := fun s => s,
    removeUnwantedElements := fun s => s,
    extractMetadata := fun _ => [],
    anchorHrefs := fun _ => [],
    originOf := fun _ => some "https://example.com",
    defaultScraperFor := fun _ => "" }

/-- A hundred-character crawler-supplied html body. -/
def longExistingHtml : String := String.mk (List.replicate 100 'b')

/-- A world for the crawler-supplied-html bypass witness, with a parsable
page URL. -/
def c5World : ScrapeWorld :=
  { env := envNone,
    attemptResult := fun _ _ =>
      { text := "network should not be used", html := "", rawHtml := "", screenshot := "",
        pageStatusCode := some 200, pageError := none },
    parseMarkdown := fun s => s,
    removeUnwantedElements := fun s => s,
    extractMetadata := fun _ => [],
    anchorHrefs := fun _ => [],
    originOf := fun _ => some "https://example.com",
    defaultScraperFor := fun _ => "" }

/-- A world for the unparsable-URL counterexample: `new URL` throws on the
page URL, so `originOf` is `none` everywhere; the backends are never reached
because the crawler supplies the html. -/
def c5FailWorld : ScrapeWorld :=
  { env := envNone,
    attemptResult := fun _ _ =>
      { text := "network should not be used", html := "", rawHtml := "", screenshot := "",
        pageStatusCode := some 200, pageError := none },
    parseMarkdown := fun s => s,
    removeUnwantedElements := fun s => s,
    extractMetadata := fun _ => [],
    anchorHrefs := fun _ => [],
    originOf := fun _ => none,
    defaultScraperFor := fun _ => "" }

/-- A sitemap world: an index whose middle child fails to fetch while the two
sibling children resolve to url sets. -/
def smWorld : SitemapWorld :=
  { fetch := fun u =>
      if u = "https://s/root.xml" then some "idx"
      else if u = "https://s/a.xml" then some "leafA"
      else if u = "https://s/b.xml" then some "leafB"
      else none,
    parse := fun c =>
      if c = "idx" then
        SitemapParse.root
          (some [some "https://s/a.xml", some "https://s/dead.xml", some "https://s/b.xml"]) none
      else if c = "leafA" then SitemapParse.root none (some [some "https://p/1"])
      else if c = "leafB" then SitemapParse.root none (some [some "https://p/2"])
      else SitemapParse.failed }

/-- A cancellation request whose job exists but is not associated with the
caller team (the ownership query returns zero rows). -/
def cancelReq0 : CancelRequest :=
  { authResult := Except.ok "team-1", jobExists := true,
    ownershipRows := Except.ok 0, jobState := "active",
    progressDocs := some 3, stateAfterMove := "failed" }

/-- Constructor data with non-empty content. -/
def docData0 : DocumentData := { content := some "hello" }

/-! ## Claims -/

/-- Claim C1: the claim states that the order returned by
`getScrapingFallbackOrder` contains only backends whose required
configuration is present, and in particular that a per-domain
`defaultScraper` override never appears when its configuration is absent.
The code violates this: the `defaultScraper` argument is added to the
`Set` ahead of the filtered lists without passing the availability filter,
contradicting the docstring of the function itself (part_005 lines 54-58:
the order is built from env-filtered scrapers).  Evaluated at the failing
input (no env vars set, override `fire-engine`): the returned order is
`[fire-engine, fetch]` although `fire-engine` is not configured. -/
theorem claim_C1_unconfigured_default_in_order :
    getScrapingFallbackOrder envNone "fire-engine" false false false = ["fire-engine", "fetch"]
    ∧ scraperConfigured envNone "fire-engine" = false
    ∧ "fire-engine" ∈ getScrapingFallbackOrder envNone "fire-engine" false false false := by
  refine ⟨by decide, by decide, by decide⟩

/-- Claim C2, counterexample: in a fetch where every backend attempt times
out (empty text, `pageStatusCode: null`, a timeout `pageError`),
`scrapSingleUrl` returns the failure document with empty content and the
correct `sourceURL`, but `metadata.pageError` is `none` (JS `undefined`),
not a non-empty string as the claim states: the loop only copies
`attempt.pageError` when `attempt.pageStatusCode >= 400`, and a `null`
status code fails that comparison. -/
theorem claim_C2_counterexample :
    c2World.attemptResult = (fun _ _ => timeoutAttempt)
    ∧ timeoutAttempt.text = ""
    ∧ timeoutAttempt.pageStatusCode = none
    ∧ jsTruthyOptStr timeoutAttempt.pageError = true
    ∧ (scrapSingleUrl c2World "https://example.com" defaultPageOptions
        "llm-extraction-from-markdown" "").doc.content = ""
    ∧ (scrapSingleUrl c2World "https://example.com" defaultPageOptions
        "llm-extraction-from-markdown" "").doc.metadata.sourceURL = "https://example.com"
    ∧ (scrapSingleUrl c2World "https://example.com" defaultPageOptions
        "llm-extraction-from-markdown" "").doc.metadata.pageError = none := by
  refine ⟨rfl, rfl, rfl, by decide, by decide, by decide, by decide⟩

/-- Claim C2, amended: for every fetch in which every backend attempt yields
empty text and no status code, `scrapSingleUrl` returns (without throwing) a
document with empty content, `metadata.sourceURL` equal to the trimmed input
URL, `metadata.pageStatusCode` kept at its default 200 — and
`metadata.pageError` left unset (`undefined`), not populated. -/
theorem claim_C2_all_timeouts_failure_document (w : ScrapeWorld) (url mode : String)
    (po : PageOptions)
    (hAll : ∀ s, (w.attemptResult (jsTrim url) s).text = ""
      ∧ (w.attemptResult (jsTrim url) s).pageStatusCode = none) :
    (scrapSingleUrl w url po mode "").doc.content = ""
    ∧ (scrapSingleUrl w url po mode "").doc.metadata.sourceURL = jsTrim url
    ∧ (scrapSingleUrl w url po mode "").doc.metadata.pageError = none
    ∧ (scrapSingleUrl w url po mode "").doc.metadata.pageStatusCode = some 200 := by
  obtain ⟨h1, h2, h3⟩ := scrapeLoop_all_trivial w (jsTrim url) hAll
    (getScrapingFallbackOrder w.env (w.defaultScraperFor (jsTrim url))
      (isWaitPresentFlag po) po.screenshot po.headers.isSome)
    initialLoopState rfl rfl rfl
  simp only [scrapSingleUrl]
  rw [if_pos h1]
  exact ⟨rfl, rfl, h3, by simp only [catchDocument]; rw [h2]⟩

/-- Witness for the amended claim C2, at the all-timeouts world. -/
theorem claim_C2_witness :
    (scrapSingleUrl c2World "https://example.com" defaultPageOptions
      "llm-extraction-from-markdown" "").doc.content = ""
    ∧ (scrapSingleUrl c2World "https://example.com" defaultPageOptions
        "llm-extraction-from-markdown" "").doc.metadata.pageError = none :=
  ⟨(claim_C2_all_timeouts_failure_document c2World "https://example.com"
      "llm-extraction-from-markdown" defaultPageOptions (fun _ => ⟨rfl, rfl⟩)).1,
   (claim_C2_all_timeouts_failure_document c2World "https://example.com"
      "llm-extraction-from-markdown" defaultPageOptions (fun _ => ⟨rfl, rfl⟩)).2.2.1⟩

/-- Claim C3: if a backend attempt reports status code 404, the fallback
loop invokes no further backend — formalized: every scraper the loop
invoked, other than the last one, reported a status different from 404
(regardless of the length of the returned text, since a 404 stops the loop
whether or not the long-text break also fires). -/
theorem claim_C3_404_halts_fallback (w : ScrapeWorld) (url : String) (po : PageOptions)
    (mode eh : String) (s : String)
    (hs : s ∈ (scrapSingleUrl w url po mode eh).attempted.dropLast) :
    (w.attemptResult (jsTrim url) s).pageStatusCode ≠ some 404 := by
  rw [scrapSingleUrl_attempted] at hs
  exact scrapeLoop_no404_dropLast w (jsTrim url) eh _ initialLoopState
    (by simp [initialLoopState]) s hs

/-- Witness for claim C3: a world where three backends are attempted; the
first attempted backend is not the last and reported 500, not 404. -/
theorem claim_C3_witness :
    "scrapingBee" ∈ (scrapSingleUrl c3World "https://example.com" defaultPageOptions
      "llm-extraction-from-markdown" "").attempted.dropLast
    ∧ (c3World.attemptResult (jsTrim "https://example.com") "scrapingBee").pageStatusCode
        ≠ some 404 :=
  ⟨by decide,
   claim_C3_404_halts_fallback c3World "https://example.com" defaultPageOptions
     "llm-extraction-from-markdown" "" "scrapingBee" (by decide)⟩

/-- Claim C4: within one fetch call the fallback loop never invokes a
backend twice (the invoked scrapers are a duplicate-free initial segment of
the deduplicated order), and if the first backend of the order returns text
of trimmed length at least 100, it is the only backend invoked. -/
theorem claim_C4_first_success_short_circuits (w : ScrapeWorld) (url : String)
    (po : PageOptions) (mode : String) (s₀ : String) (rest : List String)
    (horder : getScrapingFallbackOrder w.env (w.defaultScraperFor (jsTrim url))
      (isWaitPresentFlag po) po.screenshot po.headers.isSome = s₀ :: rest) :
    (scrapSingleUrl w url po mode "").attempted.Nodup
    ∧ (100 ≤ jsLength (jsTrim (w.attemptResult (jsTrim url) s₀).text) →
        (scrapSingleUrl w url po mode "").attempted = [s₀]) := by
  constructor
  · rw [scrapSingleUrl_attempted]
    obtain ⟨t, u, h1, h2⟩ := scrapeLoop_attempted_extends w (jsTrim url) ""
      (getScrapingFallbackOrder w.env (w.defaultScraperFor (jsTrim url))
        (isWaitPresentFlag po) po.screenshot po.headers.isSome) initialLoopState
    rw [h1]
    have hnd := nodup_fallbackOrder w.env (w.defaultScraperFor (jsTrim url))
      (isWaitPresentFlag po) po.screenshot po.headers.isSome
    rw [h2] at hnd
    simpa [initialLoopState] using hnd.of_append_left
  · intro h100
    rw [scrapSingleUrl_attempted, horder]
    simp only [scrapeLoop]
    rw [if_neg (by simp)]
    have hne : (w.attemptResult (jsTrim url) s₀).text ≠ "" := by
      intro he
      rw [he] at h100
      exact absurd h100 (by decide)
    rw [if_pos ⟨by rw [applyAttempt_text]; exact hne, by rw [applyAttempt_text]; exact h100⟩]
    rw [applyAttempt_attempted]
    simp [initialLoopState]

/-- Witness for claim C4: only the plain fetch backend is configured and it
returns a hundred-character body, so it is the only scraper attempted. -/
theorem claim_C4_witness :
    (scrapSingleUrl c4World "https://example.com" defaultPageOptions
      "llm-extraction-from-markdown" "").attempted = ["fetch"] :=
  (claim_C4_first_success_short_circuits c4World "https://example.com" defaultPageOptions
    "llm-extraction-from-markdown" "fetch" [] (by decide)).2 (by decide)

/-- Claim C5, counterexample: the claim asserts that with a long
`existingHtml` the returned content is always derived from `existingHtml`.
For an unparsable page URL this fails: after the bypass break,
`extractLinks` (part_005 line 345) calls `new URL(urlToScrap)` (line 117),
which throws, and the catch at line 388 returns the empty-content failure
document — so the content is the empty string, not the markdown of the
crawler-supplied html.  Evaluated at the concrete input `urlToScrap = ""`
with a hundred-character `existingHtml`.  (No backend is invoked on this
path either.) -/
theorem claim_C5_counterexample :
    c5FailWorld.originOf (jsTrim "") = none
    ∧ 100 ≤ jsLength (jsTrim longExistingHtml)
    ∧ (scrapSingleUrl c5FailWorld "" defaultPageOptions "llm-extraction-from-markdown"
        longExistingHtml).attempted = []
    ∧ (scrapSingleUrl c5FailWorld "" defaultPageOptions "llm-extraction-from-markdown"
        longExistingHtml).doc.content = ""
    ∧ (scrapSingleUrl c5FailWorld "" defaultPageOptions "llm-extraction-from-markdown"
        longExistingHtml).doc.content
      ≠ c5FailWorld.parseMarkdown (c5FailWorld.removeUnwantedElements longExistingHtml) := by
  refine ⟨rfl, by decide, by decide, by decide, by decide⟩

/-- Claim C5, amended: when the crawler supplies `existingHtml` of trimmed
length at least 100, no backend is ever invoked (the loop breaks on its
first iteration before any attempt, and the order is never empty since
plain fetch is always configured); when the page URL is parsable (the
`new URL(urlToScrap)` call inside `extractLinks` does not throw), the
returned content is the markdown conversion of the cleaned `existingHtml`;
when it is unparsable, that call throws after the bypass and the catch
returns the empty-content failure document — still with no fetch. -/
theorem claim_C5_existing_html_bypass (w : ScrapeWorld) (url : String) (po : PageOptions)
    (mode existingHtml : String)
    (h : 100 ≤ jsLength (jsTrim existingHtml)) :
    (scrapSingleUrl w url po mode existingHtml).attempted = []
    ∧ (∀ o, w.originOf (jsTrim url) = some o →
        (scrapSingleUrl w url po mode existingHtml).doc.content =
          w.parseMarkdown (w.removeUnwantedElements existingHtml))
    ∧ (w.originOf (jsTrim url) = none →
        (scrapSingleUrl w url po mode existingHtml).doc.content = "") := by
  have hne : existingHtml ≠ "" := by
    intro he
    rw [he] at h
    exact absurd h (by decide)
  have hmem := fetch_mem_fallbackOrder w.env (w.defaultScraperFor (jsTrim url))
    (isWaitPresentFlag po) po.screenshot po.headers.isSome
  simp only [scrapSingleUrl]
  rcases hord : getScrapingFallbackOrder w.env (w.defaultScraperFor (jsTrim url))
      (isWaitPresentFlag po) po.screenshot po.headers.isSome with _ | ⟨s, rest⟩
  · rw [hord] at hmem
    cases hmem
  · simp only [scrapeLoop]
    have hcond : existingHtml ≠ "" ∧ 100 ≤ jsLength (jsTrim existingHtml) := ⟨hne, h⟩
    rw [if_pos hcond]
    refine ⟨?_, ?_, ?_⟩
    · by_cases htxt : w.parseMarkdown (w.removeUnwantedElements existingHtml) = ""
      · simp [initialLoopState, htxt, catchDocument]
      · cases horig : w.originOf (jsTrim url) <;>
          simp [initialLoopState, htxt, horig, catchDocument]
    · intro o ho
      by_cases htxt : w.parseMarkdown (w.removeUnwantedElements existingHtml) = ""
      · simp [initialLoopState, htxt, catchDocument]
      · simp [initialLoopState, htxt, ho, catchDocument]
    · intro ho
      by_cases htxt : w.parseMarkdown (w.removeUnwantedElements existingHtml) = ""
      · simp [initialLoopState, htxt, catchDocument]
      · simp [initialLoopState, htxt, ho, catchDocument]

/-- Witness for the amended claim C5: a hundred-character crawler-supplied
body with a parsable page URL is used directly and no backend is
attempted. -/
theorem claim_C5_witness :
    (scrapSingleUrl c5World "https://example.com" defaultPageOptions
      "llm-extraction-from-markdown" longExistingHtml).attempted = []
    ∧ (scrapSingleUrl c5World "https://example.com" defaultPageOptions
        "llm-extraction-from-markdown" longExistingHtml).doc.content =
      c5World.parseMarkdown (c5World.removeUnwantedElements longExistingHtml) :=
  ⟨(claim_C5_existing_html_bypass c5World "https://example.com" defaultPageOptions
      "llm-extraction-from-markdown" longExistingHtml (by decide)).1,
   (claim_C5_existing_html_bypass c5World "https://example.com" defaultPageOptions
      "llm-extraction-from-markdown" longExistingHtml (by decide)).2.1
     "https://example.com" rfl⟩

/-- Claim C6, counterexample: the claim states that hrefs of non-http(s)
schemes other than `mailto:` are dropped.  The code instead treats any href
that is non-empty and does not start with `http://`, `https://`, `/`, `#`
or `mailto:` as a relative path and appends it to the base URL — so a
`tel:` href is kept (mangled into `baseUrl + "/" + href`), not dropped. -/
theorem claim_C6_counterexample :
    extractLinks [some "tel:+15551234567"] "https://example.com" "https://example.com/page"
      = ["https://example.com/page/tel:+15551234567"]
    ∧ extractLinks [some "tel:+15551234567"] "https://example.com" "https://example.com/page"
      ≠ [] := by
  refine ⟨by decide, by decide⟩

/-- Claim C6, amended: `extractLinks` keeps absolute http(s) hrefs verbatim,
resolves hrefs beginning with a slash against the page origin, preserves
`mailto:` hrefs verbatim, drops fragment-only hrefs, treats every other
non-empty href (including hrefs of other schemes) as a relative path
appended to the base URL, and deduplicates: the output is a duplicate-free
sublist of the classified links with the same membership. -/
theorem claim_C6_link_classification (origin baseUrl href : String)
    (hrefs : List (Option String)) :
    (jsStartsWith href "http://" = true ∨ jsStartsWith href "https://" = true →
      extractLinks [some href] origin baseUrl = [href])
    ∧ (jsStartsWith href "http://" = false → jsStartsWith href "https://" = false →
        jsStartsWith href "/" = true →
      extractLinks [some href] origin baseUrl = [origin ++ href])
    ∧ (jsStartsWith href "http://" = false → jsStartsWith href "https://" = false →
        jsStartsWith href "/" = false → jsStartsWith href "mailto:" = true →
      extractLinks [some href] origin baseUrl = [href])
    ∧ (jsStartsWith href "#" = true → jsStartsWith href "http://" = false →
        jsStartsWith href "https://" = false → jsStartsWith href "/" = false →
        jsStartsWith href "mailto:" = false →
      extractLinks [some href] origin baseUrl = [])
    ∧ (href ≠ "" → jsStartsWith href "http://" = false →
        jsStartsWith href "https://" = false → jsStartsWith href "/" = false →
        jsStartsWith href "#" = false → jsStartsWith href "mailto:" = false →
      extractLinks [some href] origin baseUrl = [baseUrl ++ "/" ++ href])
    ∧ (extractLinks hrefs origin baseUrl).Nodup
    ∧ (∀ x, x ∈ extractLinks hrefs origin baseUrl ↔ x ∈ pushLinks hrefs origin baseUrl)
    ∧ List.Sublist (extractLinks hrefs origin baseUrl) (pushLinks hrefs origin baseUrl) := by
  refine ⟨?_, ?_, ?_, ?_, ?_, ?_, ?_, ?_⟩
  · rintro (h1 | h1)
    · have hne : href ≠ "" := by
        intro he
        rw [he] at h1
        exact absurd h1 (by decide)
      simp [extractLinks, pushLinks, dedupKeepFirst, hne, h1]
    · have hne : href ≠ "" := by
        intro he
        rw [he] at h1
        exact absurd h1 (by decide)
      simp [extractLinks, pushLinks, dedupKeepFirst, hne, h1]
  · intro h1 h2 h3
    have hne : href ≠ "" := by
      intro he
      rw [he] at h3
      exact absurd h3 (by decide)
    simp [extractLinks, pushLinks, dedupKeepFirst, hne, h1, h2, h3]
  · intro h1 h2 h3 h4
    have hne : href ≠ "" := by
      intro he
      rw [he] at h4
      exact absurd h4 (by decide)
    simp [extractLinks, pushLinks, dedupKeepFirst, hne, h1, h2, h3, h4]
  · intro h0 h1 h2 h3 h4
    have hne : href ≠ "" := by
      intro he
      rw [he] at h0
      exact absurd h0 (by decide)
    simp [extractLinks, pushLinks, dedupKeepFirst, hne, h0, h1, h2, h3, h4]
  · intro h0 h1 h2 h3 h4 h5
    simp [extractLinks, pushLinks, dedupKeepFirst, h0, h1, h2, h3, h4, h5]
  · exact nodup_dedupKeepFirst _
  · exact fun x => mem_dedupKeepFirst x _
  · exact dedupKeepFirst_sublist _

/-- Witness for the amended claim C6, on a `mailto:` href. -/
theorem claim_C6_witness :
    extractLinks [some "mailto:x@y.z"] "https://o.org" "https://o.org/p" = ["mailto:x@y.z"] :=
  (claim_C6_link_classification "https://o.org" "https://o.org/p" "mailto:x@y.z" []).2.2.1
    (by decide) (by decide) (by decide) (by decide)

/-- Claim C7: a sitemap URL whose fetch fails contributes zero URLs and
raises nothing (first conjunct), and inside a `sitemapindex` a failing child
leaves the traversal of its sibling children unaffected: the accumulated
result equals the fold over the child list with the failing child removed
(second conjunct). -/
theorem claim_C7_sitemap_failure_isolated (w : SitemapWorld) (fuel : Nat)
    (u c content : String) (pre post : List (Option String))
    (ue : Option (List (Option String))) (acc : List String)
    (hc : w.fetch c = none)
    (hu : w.fetch u = some content)
    (hp : w.parse content = SitemapParse.root (some (pre ++ some c :: post)) ue) :
    getLinksFromSitemap w (fuel + 1) c acc = acc
    ∧ getLinksFromSitemap w (fuel + 1) u acc
        = (pre ++ post).foldl (sitemapChildStep w fuel) acc := by
  constructor
  · exact getLinksFromSitemap_fetch_none w c hc (fuel + 1) acc
  · have hstep : (fun acc2 loc? =>
        match loc? with
        | some loc => getLinksFromSitemap w fuel loc acc2
        | none => acc2) = sitemapChildStep w fuel := rfl
    simp only [getLinksFromSitemap, hu, hp, hstep]
    rw [List.foldl_append, List.foldl_append, List.foldl_cons]
    have hskip : sitemapChildStep w fuel ((pre).foldl (sitemapChildStep w fuel) acc) (some c)
        = (pre).foldl (sitemapChildStep w fuel) acc := by
      simp only [sitemapChildStep]
      exact getLinksFromSitemap_fetch_none w c hc fuel _
    rw [hskip]

/-- Witness for claim C7 on a concrete three-child index whose middle child
fails to fetch. -/
theorem claim_C7_witness :
    getLinksFromSitemap smWorld 4 "https://s/dead.xml" [] = []
    ∧ getLinksFromSitemap smWorld 4 "https://s/root.xml" []
        = ([some "https://s/a.xml"] ++ [some "https://s/b.xml"]).foldl
            (sitemapChildStep smWorld 3) [] :=
  claim_C7_sitemap_failure_isolated smWorld 3 "https://s/root.xml" "https://s/dead.xml"
    "idx" [some "https://s/a.xml"] [some "https://s/b.xml"] none [] (by decide) (by decide)
    (by decide)

/-- Claim C8: when authentication succeeds, the job exists, and the
ownership query returns zero rows for the caller team, the controller
answers 403 Unauthorized, performs no billing call and attempts no job-state
transition. -/
theorem claim_C8_cancel_unauthorized (req : CancelRequest) (team_id : String)
    (hauth : req.authResult = Except.ok team_id)
    (hjob : req.jobExists = true)
    (hrows : req.ownershipRows = Except.ok 0) :
    crawlCancelController req =
      { status := 403, body := "Unauthorized", billed := none, movedToFailed := false } := by
  simp [crawlCancelController, hauth, hjob, hrows]

/-- Witness for claim C8 at a concrete unauthorized request. -/
theorem claim_C8_witness :
    crawlCancelController cancelReq0 =
      { status := 403, body := "Unauthorized", billed := none, movedToFailed := false } :=
  claim_C8_cancel_unauthorized cancelReq0 "team-1" rfl rfl rfl

/-- Claim C9: for every environment, per-domain default scraper and option
flags, the fallback order contains the plain-HTTP `fetch` backend and is in
particular non-empty, so the fallback loop of `scrapSingleUrl` always has at
least one backend to attempt. -/
theorem claim_C9_order_contains_fetch (env : EnvConfig) (ds : String)
    (w s h : Bool) :
    "fetch" ∈ getScrapingFallbackOrder env ds w s h
    ∧ getScrapingFallbackOrder env ds w s h ≠ [] := by
  refine ⟨fetch_mem_fallbackOrder env ds w s h, ?_⟩
  intro hnil
  have := fetch_mem_fallbackOrder env ds w s h
  rw [hnil] at this
  cases this

/-- Claim C10: the `Document` class constructor throws exactly when the
supplied `data.content` is absent (undefined/null) or empty, and every
document it successfully constructs has non-empty content — hence the
empty-content failure documents of the fetch pipeline (built as plain
object literals) cannot be produced through the constructor. -/
theorem claim_C10_document_constructor (data : DocumentData) (now : Nat) :
    ((∃ e, documentConstructor data now = Except.error e) ↔
      (data.content = none ∨ data.content = some ""))
    ∧ (∀ d, documentConstructor data now = Except.ok d → d.content ≠ "") := by
  constructor
  · constructor
    · rintro ⟨e, he⟩
      by_contra hc
      rw [documentConstructor, if_neg hc] at he
      exact Except.noConfusion he
    · intro hcond
      exact ⟨"Missing required fields", by rw [documentConstructor, if_pos hcond]⟩
  · intro d hd
    by_cases hcond : data.content = none ∨ data.content = some ""
    · rw [documentConstructor, if_pos hcond] at hd
      exact Except.noConfusion hd
    · rw [documentConstructor, if_neg hcond] at hd
      rcases hcont : data.content with _ | s
      · exact absurd (Or.inl hcont) hcond
      · have hs : s ≠ "" := by
          intro he
          exact hcond (Or.inr (by rw [hcont, he]))
        cases hd
        simpa [hcont] using hs

/-- Witness for claim C10: the constructor succeeds on non-empty content and
the built document has non-empty content. -/
theorem claim_C10_witness :
    (⟨"hello", 7, 7, "unknown", [("sourceURL", "")], "", none, none⟩ :
      EntitiesDocument).content ≠ "" :=
  (claim_C10_document_constructor docData0 7).2 _ rfl

end Firecrawler
